import Mathlib

/-!
Verification development for the flowkey-auto token-acquisition pipeline
(source: get-flow-token.js and its current variant).  The JavaScript source
is shallowly embedded: file I/O becomes an explicit `Store` state, the
nondeterministic observations of the browser session become an explicit
`SessionEnv`, and every function keeps its source name.
-/

namespace FlowKey

/-! ### JS-style string primitives (charwise models of the string operations
the source uses: `toLowerCase`, `trim`, `includes`/regex-test, `startsWith`,
`replace`). -/

/-- Model of JS `trim`: drop ASCII whitespace from both ends of a char
list (JS `toLowerCase`/`trim` are modelled charwise by `Char.toLower` /
`Char.isWhitespace`, which agree with them on the ASCII range this program
handles). -/
def jsTrimL (l : List Char) : List Char :=
  ((l.dropWhile Char.isWhitespace).reverse.dropWhile Char.isWhitespace).reverse

/-- Model of JS `startsWith`. -/
def jsStartsWith (s pre : String) : Bool :=
  pre.data.isPrefixOf s.data

/-- Substring search on char lists (model of a literal regex test /
JS `includes`). -/
def hasSubstr : List Char → List Char → Bool
  | [], pat => pat.isEmpty
  | c :: rest, pat => pat.isPrefixOf (c :: rest) || hasSubstr rest pat

/-- Model of JS `includes` / `RegExp.test` with a literal pattern. -/
def jsIncludes (s pat : String) : Bool :=
  hasSubstr s.data pat.data

/-- Replace the first occurrence of `pat` (model of JS
`String.replace(string, ...)`, which replaces only the first occurrence). -/
def replaceOnceL : List Char → List Char → List Char → List Char
  | [], _, _ => []
  | c :: rest, pat, rep =>
    if pat.isPrefixOf (c :: rest) then rep ++ (c :: rest).drop pat.length
    else c :: replaceOnceL rest pat rep

/-- Model of JS `s.replace(pat, rep)` for a plain-string `pat`. -/
def jsReplaceOnce (s pat rep : String) : String :=
  ⟨replaceOnceL s.data pat.data rep.data⟩

/-- Replace every occurrence of the single character `c` by `rep` (model of
JS `s.replace(/c/g, rep)` for the one-character regexes the source uses). -/
def replaceCharL (l : List Char) (c : Char) (rep : List Char) : List Char :=
  l.foldr (fun x acc => (if x = c then rep else [x]) ++ acc) []

/-! ### JS-object association-list primitives.  The persisted token map and
the accounts map are JS objects: keys are unique, assignment replaces the
value in place, `delete` removes the key. -/

/-- Model of JS object property read `m[k]` (`none` = `undefined`). -/
def jsGet (m : List (String × α)) (k : String) : Option α :=
  (m.find? (fun p => p.1 = k)).map Prod.snd

/-- Model of JS object property assignment `m[k] = v`: replace the value at
the (unique) existing key in place, otherwise append the new key. -/
def jsSet : List (String × α) → String → α → List (String × α)
  | [], k, v => [(k, v)]
  | p :: rest, k, v =>
    if p.1 = k then (k, v) :: rest else p :: jsSet rest k v

/-- Model of JS `delete m[k]`. -/
def jsDelete (m : List (String × α)) (k : String) : List (String × α) :=
  m.filter (fun p => p.1 ≠ k)

/-! ### SessionStore (data model + persisted files).

`~/.flowkey-auto/tokens.json` and `accounts.json` are modelled by a
`FileContent`: missing, unparsable, or parsed content.  Profile directories
under `profiles/` are modelled by the list of directory names that exist. -/

/-- A token record as written by `saveToken`:
`{ token, updatedAt: new Date().toISOString() }`. -/
structure TokenRecord where
  token : String
  updatedAt : String
  deriving Repr, DecidableEq

abbrev TokenMap := List (String × TokenRecord)

/-- One entry of `accounts.json`: `{ email, password }`
(`password` may be absent). -/
structure Account where
  email : String
  password : Option String
  deriving Repr, DecidableEq

/-- State of a persisted JSON file: absent, unparsable, or parsed. -/
inductive FileContent (α : Type) where
  | missing
  | corrupt
  | ok (content : α)
  deriving Repr, DecidableEq

/-- The durable state the program touches: the two JSON files and the set of
profile directories (identified by their directory name). -/
structure Store where
  tokensFile : FileContent TokenMap
  accountsFile : FileContent (List Account)
  profiles : List String
  deriving Repr, DecidableEq

/-- Source `sanitizeEmail`: lower-case, then trim. -/
def sanitizeEmail (email : String) : String :=
  ⟨jsTrimL (email.data.map Char.toLower)⟩

/-- Source `getProfileDir`: the profile directory name
`sanitizeEmail(email).replace(/@/g, '_at_').replace(/\./g, '_')`
(we model the directory name, leaving the constant `PROFILES_DIR` prefix
implicit). -/
def getProfileDir (email : String) : String :=
  ⟨replaceCharL (replaceCharL (sanitizeEmail email).data '@' "_at_".data)
    '.' "_".data⟩

/-- Source `loadTokens`: the empty map when the file is missing, and the
empty map on a JSON
parse error (the `try/catch` around `JSON.parse`). -/
def loadTokens (store : Store) : TokenMap :=
  match store.tokensFile with
  | .ok m => m
  | _ => []

/-- Source `saveTokens`: write the whole map back to the tokens file. -/
def saveTokens (store : Store) (m : TokenMap) : Store :=
  { store with tokensFile := .ok m }

/-- Source `saveToken`: load, set
`tokens[sanitizeEmail(email)] = { token, updatedAt }`, save.
`now` stands for `new Date().toISOString()`. -/
def saveToken (now email token : String) (store : Store) : Store :=
  saveTokens store
    (jsSet (loadTokens store) (sanitizeEmail email) ⟨token, now⟩)

/-- Source `getToken`: read the record under the sanitized key. -/
def getToken (email : String) (store : Store) : Option TokenRecord :=
  jsGet (loadTokens store) (sanitizeEmail email)

/-- Source `removeProfile`: remove the profile directory (if present) and
delete the token-map entry, saving the map back. -/
def removeProfile (email : String) (store : Store) : Store :=
  { store with
    profiles := store.profiles.filter (fun d => d ≠ getProfileDir email),
    tokensFile := .ok (jsDelete (loadTokens store) (sanitizeEmail email)) }

/-- Source `loadAccounts`: empty when missing or unparsable; otherwise
convert the
array to an object keyed by sanitized email
(`map[sanitizeEmail(acc.email)] = acc.password`). -/
def loadAccounts (store : Store) : List (String × Option String) :=
  match store.accountsFile with
  | .ok accounts =>
    accounts.foldl (fun m acc => jsSet m (sanitizeEmail acc.email) acc.password) []
  | _ => []

/-! ### RequestInterceptor (the `context.route` handler).

`API_PATTERN = /aisandbox-pa\.googleapis\.com/` tested against the request
URL; the handler reads the `authorization` header and, when it is
`Bearer `-prefixed and `!capturedToken` (JS falsiness: `null` or `""`),
stores the header with its leading bearer marker stripped and resolves the capture
promise.  Later requests are observed by the same handler with the updated
`capturedToken`. -/

/-- One intercepted outgoing request: its URL and its `authorization`
header (`none` = header absent). -/
structure NetRequest where
  url : String
  authorization : Option String
  deriving Repr, DecidableEq

/-- JS truthiness of the `capturedToken` variable (`null` and `""` are
falsy). -/
def jsTruthyTok : Option String → Bool
  | none => false
  | some s => !(s = "")

/-- Test of the target API host pattern against a request URL. -/
def apiPatternTest (url : String) : Bool :=
  jsIncludes url "aisandbox-pa.googleapis.com"

/-- The body of the `context.route` handler, acting on the `capturedToken`
variable (`none` models the initial `null`). -/
def handleRoute (capturedToken : Option String) (r : NetRequest) : Option String :=
  if apiPatternTest r.url then
    match r.authorization with
    | some authHeader =>
      if jsStartsWith authHeader "Bearer " && !(jsTruthyTok capturedToken) then
        some (jsReplaceOnce authHeader "Bearer " "")
      else capturedToken
    | none => capturedToken
  else capturedToken

/-- Final value of `capturedToken` after the interceptor has observed the
given requests in arrival order. -/
def processRequests (init : Option String) (reqs : List NetRequest) : Option String :=
  reqs.foldl handleRoute init

/-- A request qualifies when its URL matches `API_PATTERN` and it carries a
`Bearer `-prefixed `authorization` header. -/
def isQualifying (r : NetRequest) : Bool :=
  apiPatternTest r.url &&
    (match r.authorization with
     | some authHeader => jsStartsWith authHeader "Bearer "
     | none => false)

/-- The token value a qualifying request carries. -/
def observedValue (r : NetRequest) : String :=
  match r.authorization with
  | some authHeader => jsReplaceOnce authHeader "Bearer " ""
  | none => ""

/-- Token value of the first qualifying request of the session, if any. -/
def firstQualifyingToken (reqs : List NetRequest) : Option String :=
  (reqs.find? isQualifying).map observedValue

/-! ### getFlowToken (one browser session). -/

/-- Parsed body of a successful `/v1/credits` response whose `credits`
field is present (`data.credits !== undefined`); `userPaygateTier` may be
absent. -/
structure CreditsData where
  credits : Int
  userPaygateTier : Option String
  deriving Repr, DecidableEq

/-- The nondeterministic outcomes of one browser session, fixed up front:
what the page/network did, as observed by `getFlowToken`. -/
structure SessionEnv where
  /-- Timestamp string taken at `saveToken` time. -/
  now : String
  /-- Page URL after navigation, the click attempt and the settle wait. -/
  currentUrl : String
  /-- The requests the `context.route` interceptor observes, in arrival
  order, over the lifetime of the session. -/
  requests : List NetRequest
  /-- Outcome of the credits response listener hook. -/
  creditsResponse : Option CreditsData
  /-- Whether the 300000 ms `page.waitForURL` back to `labs.google/fx`
  completes in time (interactive login path). -/
  loginWaitSucceeds : Bool
  /-- Whether the unguarded `await page.waitForTimeout(1500)` before URL
  classification rejects (e.g. the page crashed).  That await sits outside
  every `try` and there is no `finally`, so the error propagates out of
  `getFlowToken`. -/
  settleThrows : Bool
  deriving Repr, DecidableEq

/-- An uncaught JS error escaping `getFlowToken`. -/
inductive JsError where
  | pageError
  deriving Repr, DecidableEq

instance exceptDecEq {ε α : Type} [DecidableEq ε] [DecidableEq α] :
    DecidableEq (Except ε α) := fun a b =>
  match a, b with
  | .error e1, .error e2 =>
    if h : e1 = e2 then isTrue (by subst h; rfl) else isFalse (by simp [h])
  | .error _, .ok _ => isFalse (by simp)
  | .ok _, .error _ => isFalse (by simp)
  | .ok a1, .ok a2 =>
    if h : a1 = a2 then isTrue (by subst h; rfl) else isFalse (by simp [h])

/-- The per-account `Result`: `{ email, success, token?, credits?, tier?,
error? }` (absent JS fields are `none`). -/
structure FlowResult where
  email : String
  success : Bool
  token : Option String
  credits : Option Int
  tier : Option String
  error : Option String
  deriving Repr, DecidableEq

/-- A failure `Result`: `{ email, success: false, error }`. -/
def FlowResult.failure (email err : String) : FlowResult :=
  ⟨email, false, none, none, none, some err⟩

/-- Everything observable about one `getFlowToken` call: the returned
`Result` (or the uncaught error), the final durable state, whether the
browser context was closed, and the durable state / profile existence at
the instant `launchPersistentContext` began. -/
structure FlowOutcome where
  result : Except JsError FlowResult
  store : Store
  contextClosed : Bool
  profileExistedAtLaunch : Bool
  storeAtLaunch : Store
  deriving Repr, DecidableEq

/-- Model of the needs-login URL classification: the current URL
includes the login host, a signin path segment, or an authui marker. -/
def urlNeedsLogin (url : String) : Bool :=
  jsIncludes url "accounts.google.com" || jsIncludes url "/signin" ||
    jsIncludes url "authui"

/-- The pre-launch step of `getFlowToken`:
`if (forceLogin && hasProfile) removeProfile(email)`. -/
def prepStore (email : String) (forceLogin : Bool) (store : Store) : Store :=
  if forceLogin ∧ getProfileDir email ∈ store.profiles then removeProfile email store
  else store

/-- Launch step (persistent context bound to the profile dir): creates the
profile directory if it does not exist yet; touches nothing else durable. -/
def launchStore (email : String) (s1 : Store) : Store :=
  { s1 with
    profiles :=
      if getProfileDir email ∈ s1.profiles then s1.profiles
      else getProfileDir email :: s1.profiles }

/-- Tail of `getFlowToken` common to the authenticated paths: wait for the
capture, close the context, and either `saveToken` and return the success
`Result` (when `capturedToken` is truthy) or return `no_token`. -/
def finishSession (email : String) (env : SessionEnv) (store2 : Store)
    (profileExisted : Bool) : FlowOutcome :=
  match processRequests none env.requests with
  | some t =>
    if t = "" then
      -- `if (capturedToken)` is falsy for the empty string: no save.
      { result := .ok (.failure email "no_token"), store := store2,
        contextClosed := true, profileExistedAtLaunch := profileExisted,
        storeAtLaunch := store2 }
    else
      { result := .ok ⟨email, true, some t,
          env.creditsResponse.map CreditsData.credits,
          env.creditsResponse.bind CreditsData.userPaygateTier, none⟩,
        store := saveToken env.now email t store2,
        contextClosed := true, profileExistedAtLaunch := profileExisted,
        storeAtLaunch := store2 }
  | none =>
    { result := .ok (.failure email "no_token"), store := store2,
      contextClosed := true, profileExistedAtLaunch := profileExisted,
      storeAtLaunch := store2 }

/-- Source `getFlowToken`:
remove the profile when forced, launch the persistent context (creating
the profile directory), attach the interceptor, navigate, classify the URL,
run the login flow, wait for the capture, close, persist. -/
def getFlowToken (email : String) (headless forceLogin : Bool)
    (_password : Option String) (env : SessionEnv) (store : Store) : FlowOutcome :=
  let store1 := prepStore email forceLogin store
  let profileExisted : Bool := decide (getProfileDir email ∈ store1.profiles)
  let store2 : Store := launchStore email store1
  if env.settleThrows then
    -- Uncaught error between launch and return: no `finally`, the context
    -- stays open.
    { result := .error .pageError, store := store2, contextClosed := false,
      profileExistedAtLaunch := profileExisted, storeAtLaunch := store2 }
  else if urlNeedsLogin env.currentUrl then
    if headless then
      { result := .ok (.failure email "login_required"), store := store2,
        contextClosed := true, profileExistedAtLaunch := profileExisted,
        storeAtLaunch := store2 }
    else if env.loginWaitSucceeds then
      finishSession email env store2 profileExisted
    else
      { result := .ok (.failure email "login_timeout"), store := store2,
        contextClosed := true, profileExistedAtLaunch := profileExisted,
        storeAtLaunch := store2 }
  else
    finishSession email env store2 profileExisted

/-- Whether the call returned a `Result` (as opposed to raising). -/
def returnsResult (o : FlowOutcome) : Bool :=
  match o.result with
  | .ok _ => true
  | .error _ => false

/-- Success flag of the returned `Result` (`false` when the call raised). -/
def resultSuccess (o : FlowOutcome) : Bool :=
  match o.result with
  | .ok r => r.success
  | .error _ => false

/-! ### processEmails (AccountOrchestrator). -/

/-- Password lookup by sanitized key, with null fallback (the JS or-else
also maps an empty
password to `null`). -/
def passwordFor (accounts : List (String × Option String)) (email : String) :
    Option String :=
  match jsGet accounts (sanitizeEmail email) with
  | some (some p) => if p = "" then none else some p
  | _ => none

/-- The `for (const email of emails)` loop: one `getFlowToken` per email,
strictly in order, threading the durable state; an uncaught session error
propagates out of the loop. -/
def processEmailsAux (accounts : List (String × Option String))
    (headless forceLogin : Bool) (envs : Nat → SessionEnv) :
    List String → Nat → Store → Except JsError (List FlowResult × Store)
  | [], _, store => .ok ([], store)
  | email :: rest, i, store =>
    let out := getFlowToken email headless forceLogin
      (passwordFor accounts email) (envs i) store
    match out.result with
    | .error e => .error e
    | .ok r =>
      match processEmailsAux accounts headless forceLogin envs rest (i + 1) out.store with
      | .error e => .error e
      | .ok (results, store') => .ok (r :: results, store')

/-- Source `processEmails`: load the accounts map once, then run
the accounts sequentially (`envs i` is what the i-th session observes). -/
def processEmails (emails : List String) (headless forceLogin : Bool)
    (envs : Nat → SessionEnv) (store : Store) :
    Except JsError (List FlowResult × Store) :=
  processEmailsAux (loadAccounts store) headless forceLogin envs emails 0 store

/-! ### Firestore sink and the `--all` CLI branch. -/

/-- Reasons the `--all` run stops with `process.exit(1)` or an uncaught
throw. -/
inductive RunError where
  | accountsMissing
  | accountsUnparsable
  | accountsEmpty
  | firebaseCredMissing
  deriving Repr, DecidableEq

/-- Return value of `pushToFirestore` when it completes. -/
structure PushOutcome where
  success : Bool
  pushed : Nat
  deriving Repr, DecidableEq

/-- Source `initFirebase`: throws when
`~/.flowkey-auto/firebase-service-account.json` does not exist. -/
def initFirebase (credExists : Bool) : Except RunError Unit :=
  if credExists then .ok () else .error .firebaseCredMissing

/-- Source `pushToFirestore`: `initFirebase` runs first (its throw
propagates), then batch-write the successful results (commit assumed to
succeed; it is an external service). -/
def pushToFirestore (credExists : Bool) (results : List FlowResult) :
    Except RunError PushOutcome :=
  match initFirebase credExists with
  | .error e => .error e
  | .ok _ =>
    let successful := results.filter (fun r => r.success)
    if successful.length = 0 then .ok ⟨false, 0⟩
    else .ok ⟨true, successful.length⟩

/-- How an `--all` invocation ends. -/
inductive RunResult where
  /-- Process exit with code 1 before any account is touched. -/
  | earlyAbort (e : RunError)
  /-- An uncaught session error escaped `processEmails`. -/
  | crashed (e : JsError)
  /-- Case where `processEmails` completed; `push` is the outcome of the
  Firestore step (`none` when the push flag was not given). -/
  | finished (results : List FlowResult) (store : Store)
      (push : Option (Except RunError PushOutcome))
  deriving Repr, DecidableEq

/-- The `--all` CLI branch: read `accounts.json` directly (exit on missing /
unparsable / empty), run `processEmails` over all accounts, and only
afterwards run `pushToFirestore` when `--firestore-push` is set. -/
def runAllBranch (store : Store) (headless forceLogin firestorePush credExists : Bool)
    (envs : Nat → SessionEnv) : RunResult :=
  match store.accountsFile with
  | .missing => .earlyAbort .accountsMissing
  | .corrupt => .earlyAbort .accountsUnparsable
  | .ok accounts =>
    if accounts.length = 0 then .earlyAbort .accountsEmpty
    else
      match processEmails (accounts.map Account.email) headless forceLogin envs store with
      | .error e => .crashed e
      | .ok (results, store') =>
        .finished results store'
          (if firestorePush then some (pushToFirestore credExists results) else none)

/-- The two email strings differ only in letter case and/or leading or
trailing whitespace: after trimming both ends, they agree up to ASCII
case. -/
def caseWsEquiv (e1 e2 : String) : Prop :=
  (jsTrimL e1.data).map Char.toLower = (jsTrimL e2.data).map Char.toLower

instance caseWsEquivDecidable (e1 e2 : String) : Decidable (caseWsEquiv e1 e2) :=
  inferInstanceAs
    (Decidable ((jsTrimL e1.data).map Char.toLower
      = (jsTrimL e2.data).map Char.toLower))

/-! ### Concrete inputs used to exercise the model. -/

/-- A URL matching `API_PATTERN`. -/
def apiUrl : String := "https://aisandbox-pa.googleapis.com/v1/things"

/-- A session that lands on the Google login page and (if interactive)
never completes the login wait; no API requests observed. -/
def envLogin : SessionEnv :=
  { now := "2026-01-01T00:00:00.000Z",
    currentUrl := "https://accounts.google.com/v3/signin/identifier",
    requests := [], creditsResponse := none,
    loginWaitSucceeds := false, settleThrows := false }

/-- A session already authenticated whose page issues one API request
bearing token `T1`. -/
def envToken : SessionEnv :=
  { now := "2026-01-01T00:00:00.000Z",
    currentUrl := "https://labs.google/fx/tools/flow",
    requests := [⟨apiUrl, some "Bearer T1"⟩], creditsResponse := none,
    loginWaitSucceeds := true, settleThrows := false }

/-- A session whose unguarded settle wait rejects (uncaught error). -/
def envCrash : SessionEnv :=
  { envLogin with settleThrows := true }

/-- Fresh durable state: no tokens file yet, one configured account,
no profiles. -/
def storeFresh : Store :=
  { tokensFile := .missing, accountsFile := .ok [⟨"a@x.com", some "p"⟩],
    profiles := [] }

/-- Durable state where account `a@x.com` already has a profile directory
and a stored token record. -/
def storeWithProfile : Store :=
  { tokensFile := .ok [("a@x.com", ⟨"oldTok", "2025-12-01T00:00:00.000Z"⟩)],
    accountsFile := .ok [⟨"a@x.com", some "p"⟩],
    profiles := ["a_at_x_com"] }

end FlowKey

namespace FlowKey

/-! ### Association-list lemmas (JS object semantics). -/

theorem jsGet_jsSet_self (m : List (String × α)) (k : String) (v : α) :
    jsGet (jsSet m k v) k = some v := by
  induction m with
  | nil => simp [jsSet, jsGet, List.find?]
  | cons p rest ih =>
    by_cases h : p.1 = k
    · simp [jsSet, h, jsGet, List.find?]
    · simpa [jsSet, h, jsGet, List.find?] using ih

theorem jsGet_jsDelete_self (m : List (String × α)) (k : String) :
    jsGet (jsDelete m k) k = none := by
  simp only [jsGet, jsDelete, Option.map_eq_none', List.find?_eq_none]
  intro p hp
  simp only [List.mem_filter, decide_eq_true_eq] at hp
  simp [hp.2]

theorem mem_keys_jsSet (m : List (String × α)) (k : String) (v : α) (a : String) :
    a ∈ (jsSet m k v).map Prod.fst ↔ a ∈ m.map Prod.fst ∨ a = k := by
  induction m with
  | nil => simp [jsSet]
  | cons p rest ih =>
    by_cases h : p.1 = k
    · subst h; simp [jsSet]; tauto
    · simp [jsSet, h, ih]; tauto

theorem nodupKeys_jsSet (m : List (String × α)) (k : String) (v : α)
    (h : (m.map Prod.fst).Nodup) : ((jsSet m k v).map Prod.fst).Nodup := by
  induction m with
  | nil => simp [jsSet]
  | cons p rest ih =>
    simp only [List.map_cons, List.nodup_cons] at h
    by_cases hp : p.1 = k
    · subst hp; simpa [jsSet] using h
    · simp only [jsSet, if_neg hp, List.map_cons, List.nodup_cons]
      refine ⟨fun hc => ?_, ih h.2⟩
      rcases (mem_keys_jsSet rest k v p.1).mp hc with hm | he
      · exact h.1 hm
      · exact hp he

theorem countKey_eq_zero (m : List (String × α)) (k : String)
    (h : k ∉ m.map Prod.fst) :
    (m.filter (fun p => p.1 = k)).length = 0 := by
  simp only [List.length_eq_zero, List.filter_eq_nil_iff]
  intro p hp
  simp only [decide_eq_true_eq]
  intro he
  exact h (he ▸ List.mem_map_of_mem Prod.fst hp)

theorem countKey_jsSet_eq_one (m : List (String × α)) (k : String) (v : α)
    (h : (m.map Prod.fst).Nodup) :
    ((jsSet m k v).filter (fun p => p.1 = k)).length = 1 := by
  induction m with
  | nil => simp [jsSet]
  | cons p rest ih =>
    simp only [List.map_cons, List.nodup_cons] at h
    by_cases hp : p.1 = k
    · subst hp
      simp only [jsSet, if_pos rfl, List.filter_cons, decide_eq_true_eq]
      simp [countKey_eq_zero rest p.1 h.1]
    · simp only [jsSet, if_neg hp, List.filter_cons, decide_eq_true_eq]
      simp [hp, ih h.2]

/-- C7: a read of a missing or unparsable persisted file (token map or
account list) returns the empty structure; the functions are total, so no
error is ever raised to the caller. -/
theorem loads_degrade_to_empty (tf : FileContent TokenMap)
    (af : FileContent (List Account)) (ps : List String) :
    loadTokens ⟨FileContent.missing, af, ps⟩ = [] ∧
    loadTokens ⟨FileContent.corrupt, af, ps⟩ = [] ∧
    loadAccounts ⟨tf, FileContent.missing, ps⟩ = [] ∧
    loadAccounts ⟨tf, FileContent.corrupt, ps⟩ = [] :=
  ⟨rfl, rfl, rfl, rfl⟩

/-- C6: saving a token for the same email twice leaves exactly one record
under the sanitized-email key, and that record is exactly the second write
(full overwrite, no field-level merge). -/
theorem saveToken_twice_upsert (store : Store) (email t1 t2 now1 now2 : String)
    (h : ((loadTokens store).map Prod.fst).Nodup) :
    ((loadTokens (saveToken now2 email t2 (saveToken now1 email t1 store))).filter
        (fun p => p.1 = sanitizeEmail email)).length = 1 ∧
    getToken email (saveToken now2 email t2 (saveToken now1 email t1 store))
      = some ⟨t2, now2⟩ := by
  have h2 : loadTokens (saveToken now2 email t2 (saveToken now1 email t1 store))
      = jsSet (jsSet (loadTokens store) (sanitizeEmail email) ⟨t1, now1⟩)
          (sanitizeEmail email) ⟨t2, now2⟩ := rfl
  constructor
  · rw [h2]
    exact countKey_jsSet_eq_one _ _ _ (nodupKeys_jsSet _ _ _ h)
  · show jsGet (loadTokens _) (sanitizeEmail email) = _
    rw [h2]
    exact jsGet_jsSet_self _ _ _

/-- C6 witness: concrete double save starting from fresh durable state. -/
theorem saveToken_twice_upsert_witness :
    ((loadTokens storeFresh).map Prod.fst).Nodup ∧
    (((loadTokens (saveToken "n2" "a@x.com" "t2"
          (saveToken "n1" "a@x.com" "t1" storeFresh))).filter
        (fun p => p.1 = sanitizeEmail "a@x.com")).length = 1 ∧
      getToken "a@x.com" (saveToken "n2" "a@x.com" "t2"
          (saveToken "n1" "a@x.com" "t1" storeFresh)) = some ⟨"t2", "n2"⟩) :=
  ⟨by decide, saveToken_twice_upsert storeFresh "a@x.com" "t1" "t2" "n1" "n2" (by decide)⟩

end FlowKey

namespace FlowKey

/-! ### Interceptor lemmas. -/

theorem handleRoute_not_qualifying (st : Option String) (r : NetRequest)
    (h : isQualifying r = false) : handleRoute st r = st := by
  unfold handleRoute
  unfold isQualifying at h
  by_cases ha : apiPatternTest r.url
  · simp only [ha, if_pos] at h ⊢
    match hh : r.authorization with
    | none => rfl
    | some authHeader =>
      rw [hh] at h
      simp only [Bool.true_and] at h
      simp [h]
  · simp [ha]

theorem handleRoute_stable (v : String) (hv : v ≠ "") (r : NetRequest) :
    handleRoute (some v) r = some v := by
  unfold handleRoute
  have ht : jsTruthyTok (some v) = true := by simp [jsTruthyTok, hv]
  by_cases ha : apiPatternTest r.url
  · simp only [ha, if_pos]
    match r.authorization with
    | none => rfl
    | some authHeader => simp [ht]
  · simp [ha]

theorem processRequests_stable (v : String) (hv : v ≠ "") (reqs : List NetRequest) :
    processRequests (some v) reqs = some v := by
  induction reqs with
  | nil => rfl
  | cons r rest ih =>
    unfold processRequests at ih ⊢
    rw [List.foldl_cons, handleRoute_stable v hv r]
    exact ih

theorem handleRoute_none_qualifying (r : NetRequest) (h : isQualifying r = true) :
    handleRoute none r = some (observedValue r) := by
  unfold isQualifying at h
  rw [Bool.and_eq_true] at h
  unfold handleRoute observedValue
  rw [if_pos h.1]
  match hh : r.authorization with
  | none => rw [hh] at h; exact absurd h.2 (by simp)
  | some authHeader =>
    rw [hh] at h
    have h2 : jsStartsWith authHeader "Bearer " = true := h.2
    simp [h2, jsTruthyTok]

/-- First-wins holds whenever the first qualifying observation carries a
non-empty token value. -/
theorem processRequests_first_qualifying (reqs : List NetRequest) (v : String)
    (h : firstQualifyingToken reqs = some v) (hv : v ≠ "") :
    processRequests none reqs = some v := by
  induction reqs with
  | nil => simp [firstQualifyingToken] at h
  | cons r rest ih =>
    by_cases hq : isQualifying r
    · have hv' : observedValue r = v := by
        unfold firstQualifyingToken at h
        rw [List.find?_cons_of_pos _ hq] at h
        simpa using h
      unfold processRequests
      rw [List.foldl_cons, handleRoute_none_qualifying r hq, hv']
      exact processRequests_stable v hv rest
    · have h' : firstQualifyingToken rest = some v := by
        unfold firstQualifyingToken at h ⊢
        rwa [List.find?_cons_of_neg _ (by simpa using hq)] at h
      unfold processRequests
      rw [List.foldl_cons, handleRoute_not_qualifying none r (by simpa using hq)]
      exact ih h'

/-! ### getFlowToken structural lemmas. -/

theorem finishSession_contextClosed (email : String) (env : SessionEnv)
    (s : Store) (pe : Bool) : (finishSession email env s pe).contextClosed = true := by
  unfold finishSession
  split <;> first | rfl | (split <;> rfl)

theorem finishSession_profileExisted (email : String) (env : SessionEnv)
    (s : Store) (pe : Bool) :
    (finishSession email env s pe).profileExistedAtLaunch = pe := by
  unfold finishSession
  split <;> first | rfl | (split <;> rfl)

theorem finishSession_storeAtLaunch (email : String) (env : SessionEnv)
    (s : Store) (pe : Bool) : (finishSession email env s pe).storeAtLaunch = s := by
  unfold finishSession
  split <;> first | rfl | (split <;> rfl)

theorem finishSession_success (email : String) (env : SessionEnv) (s : Store)
    (pe : Bool) (v : String) (hcap : processRequests none env.requests = some v)
    (hv : v ≠ "") :
    finishSession email env s pe =
      { result := .ok ⟨email, true, some v,
          env.creditsResponse.map CreditsData.credits,
          env.creditsResponse.bind CreditsData.userPaygateTier, none⟩,
        store := saveToken env.now email v s,
        contextClosed := true, profileExistedAtLaunch := pe,
        storeAtLaunch := s } := by
  unfold finishSession
  rw [hcap]
  simp [hv]

theorem finishSession_store_of_not_success (email : String) (env : SessionEnv)
    (s : Store) (pe : Bool)
    (h : resultSuccess (finishSession email env s pe) = false) :
    (finishSession email env s pe).store = s := by
  unfold finishSession at h ⊢
  split at h
  case h_1 t ht =>
    by_cases hv : t = ""
    · simp [hv]
    · simp [hv, resultSuccess] at h
  case h_2 ht => rfl

theorem finishSession_email (email : String) (env : SessionEnv) (s : Store)
    (pe : Bool) (r : FlowResult)
    (h : (finishSession email env s pe).result = .ok r) : r.email = email := by
  unfold finishSession at h
  split at h
  · split at h <;> ((injection h with h; rw [← h]) <;> rfl)
  · (injection h with h; rw [← h]) <;> rfl

theorem getFlowToken_email (email : String) (headless forceLogin : Bool)
    (password : Option String) (env : SessionEnv) (store : Store) (r : FlowResult)
    (h : (getFlowToken email headless forceLogin password env store).result = .ok r) :
    r.email = email := by
  unfold getFlowToken at h
  split at h
  · exact absurd h (by simp)
  · split at h
    · split at h
      · (injection h with h; rw [← h]) <;> rfl
      · split at h
        · exact finishSession_email _ _ _ _ _ h
        · (injection h with h; rw [← h]) <;> rfl
    · exact finishSession_email _ _ _ _ _ h

theorem getFlowToken_returns (email : String) (headless forceLogin : Bool)
    (password : Option String) (env : SessionEnv) (store : Store)
    (h : env.settleThrows = false) :
    ∃ r, (getFlowToken email headless forceLogin password env store).result = .ok r := by
  unfold getFlowToken
  rw [if_neg (by simp [h])]
  split
  · split
    · exact ⟨_, rfl⟩
    · split
      · unfold finishSession
        split
        · split
          · exact ⟨_, rfl⟩
          · exact ⟨_, rfl⟩
        · exact ⟨_, rfl⟩
      · exact ⟨_, rfl⟩
  · unfold finishSession
    split
    · split
      · exact ⟨_, rfl⟩
      · exact ⟨_, rfl⟩
    · exact ⟨_, rfl⟩

theorem getFlowToken_contextClosed_of_no_throw (email : String)
    (headless forceLogin : Bool) (password : Option String) (env : SessionEnv)
    (store : Store) (h : env.settleThrows = false) :
    (getFlowToken email headless forceLogin password env store).contextClosed = true := by
  unfold getFlowToken
  rw [if_neg (by simp [h])]
  split
  · split
    · rfl
    · split
      · exact finishSession_contextClosed _ _ _ _
      · rfl
  · exact finishSession_contextClosed _ _ _ _

theorem getFlowToken_profileExisted (email : String) (headless forceLogin : Bool)
    (password : Option String) (env : SessionEnv) (store : Store) :
    (getFlowToken email headless forceLogin password env store).profileExistedAtLaunch
      = decide (getProfileDir email ∈ (prepStore email forceLogin store).profiles) := by
  unfold getFlowToken
  split
  · rfl
  · split
    · split
      · rfl
      · split
        · exact finishSession_profileExisted _ _ _ _
        · rfl
    · exact finishSession_profileExisted _ _ _ _

theorem getFlowToken_storeAtLaunch (email : String) (headless forceLogin : Bool)
    (password : Option String) (env : SessionEnv) (store : Store) :
    (getFlowToken email headless forceLogin password env store).storeAtLaunch
      = launchStore email (prepStore email forceLogin store) := by
  unfold getFlowToken
  split
  · rfl
  · split
    · split
      · rfl
      · split
        · exact finishSession_storeAtLaunch _ _ _ _
        · rfl
    · exact finishSession_storeAtLaunch _ _ _ _

theorem getFlowToken_store_of_not_success (email : String)
    (headless forceLogin : Bool) (password : Option String) (env : SessionEnv)
    (store : Store)
    (h : resultSuccess (getFlowToken email headless forceLogin password env store)
      = false) :
    (getFlowToken email headless forceLogin password env store).store
      = launchStore email (prepStore email forceLogin store) := by
  by_cases h1 : env.settleThrows
  · simp [getFlowToken, h1]
  · by_cases h2 : urlNeedsLogin env.currentUrl
    · by_cases h3 : headless
      · simp [getFlowToken, h1, h2, h3]
      · by_cases h4 : env.loginWaitSucceeds
        · simp only [getFlowToken, h1, h2, h3, h4, Bool.false_eq_true, if_false,
            if_true, eq_self_iff_true] at h ⊢
          exact finishSession_store_of_not_success _ _ _ _ h
        · simp [getFlowToken, h1, h2, h3, h4]
    · simp only [getFlowToken, h1, h2, Bool.false_eq_true, if_false] at h ⊢
      exact finishSession_store_of_not_success _ _ _ _ h

theorem getToken_launchStore (email email2 : String) (s1 : Store) :
    getToken email (launchStore email2 s1) = getToken email s1 := by
  simp [getToken, launchStore, loadTokens]

theorem getToken_prepStore_forced (email : String) (store : Store)
    (hp : getProfileDir email ∈ store.profiles) :
    getToken email (prepStore email true store) = none := by
  simp [prepStore, hp, getToken, loadTokens, removeProfile, jsGet_jsDelete_self]

/-- C1 counterexample: two qualifying requests in one session carrying
different bearer token values ("" and "tok2"); the first-observed value is
"", yet the retained token is the second one — the `!capturedToken`
falsiness check treats a captured empty token as "none captured yet". -/
theorem capture_firstWins_counterexample :
    isQualifying ⟨"https://aisandbox-pa.googleapis.com/v1/a", some "Bearer "⟩ = true ∧
    isQualifying ⟨"https://aisandbox-pa.googleapis.com/v1/b", some "Bearer tok2"⟩ = true ∧
    firstQualifyingToken
        [⟨"https://aisandbox-pa.googleapis.com/v1/a", some "Bearer "⟩,
         ⟨"https://aisandbox-pa.googleapis.com/v1/b", some "Bearer tok2"⟩] = some "" ∧
    processRequests none
        [⟨"https://aisandbox-pa.googleapis.com/v1/a", some "Bearer "⟩,
         ⟨"https://aisandbox-pa.googleapis.com/v1/b", some "Bearer tok2"⟩] = some "tok2" ∧
    ("tok2" : String) ≠ "" := by
  refine ⟨by decide, by decide, by decide, by decide, by decide⟩

/-- C1 (amended): whenever the first qualifying observation of the session
carries a non-empty token value, that value is retained (first-wins) and,
if the session returns success, the returned token and the TokenRecord
written for the account both equal that first-observed value. -/
theorem capture_firstWins (email : String) (headless forceLogin : Bool)
    (password : Option String) (env : SessionEnv) (store : Store) (v : String)
    (h : firstQualifyingToken env.requests = some v) (hv : v ≠ "") :
    processRequests none env.requests = some v ∧
    ∀ r, (getFlowToken email headless forceLogin password env store).result = .ok r →
      r.success = true →
      r.token = some v ∧
      getToken email (getFlowToken email headless forceLogin password env store).store
        = some ⟨v, env.now⟩ := by
  have hcap : processRequests none env.requests = some v :=
    processRequests_first_qualifying env.requests v h hv
  refine ⟨hcap, ?_⟩
  intro r hr hs
  by_cases h1 : env.settleThrows
  · simp [getFlowToken, h1] at hr
  · by_cases h2 : urlNeedsLogin env.currentUrl
    · by_cases h3 : headless
      · simp [getFlowToken, h1, h2, h3] at hr
        rw [← hr] at hs
        simp [FlowResult.failure] at hs
      · by_cases h4 : env.loginWaitSucceeds
        · simp only [getFlowToken, h1, h2, h3, h4, Bool.false_eq_true, if_false,
            if_true, eq_self_iff_true] at hr ⊢
          rw [finishSession_success _ _ _ _ v hcap hv] at hr ⊢
          simp only [Except.ok.injEq] at hr
          subst hr
          refine ⟨rfl, ?_⟩
          show jsGet (loadTokens (saveToken _ _ _ _)) _ = _
          exact jsGet_jsSet_self _ _ _
        · simp [getFlowToken, h1, h2, h3, h4] at hr
          rw [← hr] at hs
          simp [FlowResult.failure] at hs
    · simp only [getFlowToken, h1, h2, Bool.false_eq_true, if_false] at hr ⊢
      rw [finishSession_success _ _ _ _ v hcap hv] at hr ⊢
      simp only [Except.ok.injEq] at hr
      subst hr
      refine ⟨rfl, ?_⟩
      show jsGet (loadTokens (saveToken _ _ _ _)) _ = _
      exact jsGet_jsSet_self _ _ _

/-- C1 witness: a non-empty first capture `T1` is retained and saved for a
concrete successful session. -/
theorem capture_firstWins_witness :
    firstQualifyingToken envToken.requests = some "T1" ∧ ("T1" : String) ≠ "" ∧
    processRequests none envToken.requests = some "T1" := by
  refine ⟨by decide, by decide,
    (capture_firstWins "a@x.com" false false none envToken storeFresh "T1"
      (by decide) (by decide)).1⟩

/-- C3 counterexample: a session in which the unguarded settle wait rejects
exits `getFlowToken` through an uncaught error, and the browser context is
not closed (there is no try/finally around the session body). -/
theorem teardown_counterexample :
    (getFlowToken "a@x.com" false false none envCrash storeFresh).result
      = .error .pageError ∧
    (getFlowToken "a@x.com" false false none envCrash storeFresh).contextClosed
      = false := by
  refine ⟨rfl, rfl⟩

/-- C3 (amended): on every exit path on which `getFlowToken` returns a
`Result` — success, headless login-required, login-timeout, and
no-token — the browser context is closed before it returns; an uncaught
error instead propagates without closing the context. -/
theorem teardown_on_return (email : String) (headless forceLogin : Bool)
    (password : Option String) (env : SessionEnv) (store : Store)
    (h : returnsResult (getFlowToken email headless forceLogin password env store)
      = true) :
    (getFlowToken email headless forceLogin password env store).contextClosed
      = true := by
  by_cases h1 : env.settleThrows
  · exfalso
    simp [returnsResult, getFlowToken, h1] at h
  · exact getFlowToken_contextClosed_of_no_throw email headless forceLogin
      password env store (by simpa using h1)

/-- C3 witness: a concrete returning session (headless, login required)
closes its context. -/
theorem teardown_on_return_witness :
    returnsResult (getFlowToken "a@x.com" true false none envLogin storeFresh)
      = true ∧
    (getFlowToken "a@x.com" true false none envLogin storeFresh).contextClosed
      = true :=
  ⟨by decide, teardown_on_return "a@x.com" true false none envLogin storeFresh
    (by decide)⟩

/-- C5: with `forceLogin = true` the profile directory for the sanitized
email does not exist at the instant `launchPersistentContext` begins —
an existing profile is removed first, and a fresh account has none. -/
theorem forceLogin_profile_absent_at_launch (email : String) (headless : Bool)
    (password : Option String) (env : SessionEnv) (store : Store) :
    (getFlowToken email headless true password env store).profileExistedAtLaunch
      = false := by
  rw [getFlowToken_profileExisted]
  by_cases hp : getProfileDir email ∈ store.profiles
  · simp [prepStore, hp, removeProfile]
  · simp [prepStore, hp]

/-- C2: a headless session whose post-navigation URL classifies as
needs-login returns the login-required failure Result,
and no TokenRecord is written for that account: its token-map entry is
either unchanged or (when forceLogin removed it) absent. -/
theorem headless_needsLogin_no_write (email : String) (forceLogin : Bool)
    (password : Option String) (env : SessionEnv) (store : Store)
    (h1 : env.settleThrows = false) (h2 : urlNeedsLogin env.currentUrl = true) :
    (getFlowToken email true forceLogin password env store).result
      = .ok (.failure email "login_required") ∧
    (getToken email (getFlowToken email true forceLogin password env store).store
        = getToken email store ∨
      getToken email (getFlowToken email true forceLogin password env store).store
        = none) := by
  have hres : (getFlowToken email true forceLogin password env store).result
      = .ok (.failure email "login_required") := by
    simp [getFlowToken, h1, h2]
  refine ⟨hres, ?_⟩
  have hns : resultSuccess (getFlowToken email true forceLogin password env store)
      = false := by
    simp [resultSuccess, hres, FlowResult.failure]
  rw [getFlowToken_store_of_not_success _ _ _ _ _ _ hns, getToken_launchStore]
  by_cases hf : (forceLogin = true ∧ getProfileDir email ∈ store.profiles)
  · refine Or.inr ?_
    simp [prepStore, hf, getToken, loadTokens, removeProfile, jsGet_jsDelete_self]
  · refine Or.inl ?_
    simp [prepStore, hf]

/-- C2 witness: concrete headless needs-login session against fresh state. -/
theorem headless_needsLogin_no_write_witness :
    envLogin.settleThrows = false ∧
    urlNeedsLogin envLogin.currentUrl = true ∧
    ((getFlowToken "a@x.com" true false none envLogin storeFresh).result
      = .ok (.failure "a@x.com" "login_required") ∧
    (getToken "a@x.com" (getFlowToken "a@x.com" true false none envLogin storeFresh).store
        = getToken "a@x.com" storeFresh ∨
      getToken "a@x.com" (getFlowToken "a@x.com" true false none envLogin storeFresh).store
        = none)) :=
  ⟨rfl, by decide,
    headless_needsLogin_no_write "a@x.com" false none envLogin storeFresh rfl (by decide)⟩

/-- C10: for an account whose profile exists, `forceLogin = true` also
deletes the TokenRecord of the account (removeProfile removes the profile
directory and the token-map entry together), so the entry is already gone
when the session relaunches, and if the session does not end in success
the account is left with no TokenRecord at all. -/
theorem forceLogin_removes_tokenRecord (email : String) (headless : Bool)
    (password : Option String) (env : SessionEnv) (store : Store)
    (hp : getProfileDir email ∈ store.profiles)
    (hfail : resultSuccess (getFlowToken email headless true password env store)
      = false) :
    getToken email
        (getFlowToken email headless true password env store).storeAtLaunch = none ∧
    getToken email (getFlowToken email headless true password env store).store
      = none := by
  constructor
  · rw [getFlowToken_storeAtLaunch, getToken_launchStore]
    exact getToken_prepStore_forced email store hp
  · rw [getFlowToken_store_of_not_success _ _ _ _ _ _ hfail, getToken_launchStore]
    exact getToken_prepStore_forced email store hp

/-- C10 witness: account with an existing profile and stored record,
forced re-login, failing (headless login-required) session. -/
theorem forceLogin_removes_tokenRecord_witness :
    getProfileDir "a@x.com" ∈ storeWithProfile.profiles ∧
    resultSuccess (getFlowToken "a@x.com" true true none envLogin storeWithProfile)
      = false ∧
    (getToken "a@x.com"
        (getFlowToken "a@x.com" true true none envLogin storeWithProfile).storeAtLaunch
        = none ∧
      getToken "a@x.com"
        (getFlowToken "a@x.com" true true none envLogin storeWithProfile).store
        = none) :=
  ⟨by decide, by decide,
    forceLogin_removes_tokenRecord "a@x.com" true none envLogin storeWithProfile
      (by decide) (by decide)⟩

/-! ### Orchestrator lemmas. -/

theorem processEmailsAux_ok (accounts : List (String × Option String))
    (headless forceLogin : Bool) (envs : Nat → SessionEnv)
    (h : ∀ j, (envs j).settleThrows = false) :
    ∀ (emails : List String) (i : Nat) (store : Store),
      ∃ results store',
        processEmailsAux accounts headless forceLogin envs emails i store
          = .ok (results, store') ∧
        results.length = emails.length ∧
        ∀ (k : Nat) (hk : k < results.length) (hk2 : k < emails.length),
          (results.get ⟨k, hk⟩).email = emails.get ⟨k, hk2⟩ := by
  intro emails
  induction emails with
  | nil =>
    intro i store
    exact ⟨[], store, rfl, rfl, fun k hk _ => absurd hk (by simp)⟩
  | cons email rest ih =>
    intro i store
    obtain ⟨r, hr⟩ := getFlowToken_returns email headless forceLogin
      (passwordFor accounts email) (envs i) store (h i)
    have he : r.email = email := getFlowToken_email _ _ _ _ _ _ _ hr
    obtain ⟨results, store', haux, hlen, hcorr⟩ :=
      ih (i + 1)
        (getFlowToken email headless forceLogin (passwordFor accounts email)
          (envs i) store).store
    refine ⟨r :: results, store', ?_, by simp [hlen], ?_⟩
    · simp [processEmailsAux, hr, haux]
    · intro k hk hk2
      cases k with
      | zero => simpa using he
      | succ k0 =>
        simp only [List.length_cons] at hk hk2
        have hk' : k0 < results.length := Nat.lt_of_succ_lt_succ hk
        have hk2' : k0 < rest.length := Nat.lt_of_succ_lt_succ hk2
        simpa using hcorr k0 hk' hk2'

/-- C8: processEmails yields exactly one Result per input email, in input
order (the i-th Result carries the i-th email), accounts being processed
strictly sequentially. -/
theorem processEmails_order (emails : List String) (headless forceLogin : Bool)
    (envs : Nat → SessionEnv) (store : Store)
    (h : ∀ j, (envs j).settleThrows = false) :
    ∃ results store',
      processEmails emails headless forceLogin envs store = .ok (results, store') ∧
      results.length = emails.length ∧
      ∀ (k : Nat) (hk : k < results.length) (hk2 : k < emails.length),
        (results.get ⟨k, hk⟩).email = emails.get ⟨k, hk2⟩ :=
  processEmailsAux_ok (loadAccounts store) headless forceLogin envs h emails 0 store

/-- C8 witness: two concrete accounts with mixed (failing) outcomes. -/
theorem processEmails_order_witness :
    ∃ results store',
      processEmails ["a@x.com", "b@y.com"] true false (fun _ => envLogin) storeFresh
        = .ok (results, store') ∧
      results.length = (["a@x.com", "b@y.com"] : List String).length ∧
      ∀ (k : Nat) (hk : k < results.length)
        (hk2 : k < (["a@x.com", "b@y.com"] : List String).length),
        (results.get ⟨k, hk⟩).email
          = (["a@x.com", "b@y.com"] : List String).get ⟨k, hk2⟩ :=
  processEmails_order ["a@x.com", "b@y.com"] true false (fun _ => envLogin)
    storeFresh (fun _ => rfl)

/-- C4 counterexample: with the Firestore sink configured and its
credential file missing, the `--all` run still processes the (single)
account — producing its Result and mutating durable state — and only the
subsequent sink step fails; it does not abort before account processing. -/
theorem runAll_credMissing_counterexample :
    runAllBranch storeFresh true false true false (fun _ => envLogin)
      = .finished [.failure "a@x.com" "login_required"]
          { tokensFile := .missing,
            accountsFile := .ok [⟨"a@x.com", some "p"⟩],
            profiles := ["a_at_x_com"] }
          (some (.error .firebaseCredMissing)) := by
  decide

/-- C4 (amended): only a missing / unparsable / empty accounts file aborts
the run before any account is processed.  A missing Firestore credential
does not: every account is processed first (one Result each), and the
missing-credential error is raised only afterwards, when the sink runs. -/
theorem runAll_credMissing_after_processing (store : Store)
    (accounts : List Account) (headless forceLogin : Bool)
    (envs : Nat → SessionEnv)
    (ha : store.accountsFile = .ok accounts) (hne : accounts ≠ [])
    (henv : ∀ j, (envs j).settleThrows = false) :
    ∃ results store',
      runAllBranch store headless forceLogin true false envs
        = .finished results store' (some (.error .firebaseCredMissing)) ∧
      results.length = accounts.length := by
  obtain ⟨results, store', hp, hlen, _⟩ :=
    processEmailsAux_ok (loadAccounts store) headless forceLogin envs henv
      (accounts.map Account.email) 0 store
  refine ⟨results, store', ?_, by rw [hlen, List.length_map]⟩
  simp only [runAllBranch, ha]
  rw [if_neg (show ¬accounts.length = 0 by simpa using hne)]
  simp only [processEmails, hp]
  simp [pushToFirestore, initFirebase]

/-- C4 witness for the amended claim. -/
theorem runAll_credMissing_after_processing_witness :
    ∃ results store',
      runAllBranch storeFresh true false true false (fun _ => envLogin)
        = .finished results store' (some (.error .firebaseCredMissing)) ∧
      results.length = ([⟨"a@x.com", some "p"⟩] : List Account).length :=
  runAll_credMissing_after_processing storeFresh [⟨"a@x.com", some "p"⟩] true false
    (fun _ => envLogin) rfl (by decide) (fun _ => rfl)

/-! ### Sanitization lemmas. -/

theorem toNat_ofNat_valid (n : Nat) (h : n.isValidChar) :
    (Char.ofNat n).toNat = n := by
  rw [Char.ofNat, dif_pos h]
  rfl

theorem isWhitespace_false_of_gt (d : Char) (h : 64 < d.toNat) :
    d.isWhitespace = false := by
  have h1 : d ≠ ' ' := fun he => absurd (he ▸ h) (by decide)
  have h2 : d ≠ '\t' := fun he => absurd (he ▸ h) (by decide)
  have h3 : d ≠ '\r' := fun he => absurd (he ▸ h) (by decide)
  have h4 : d ≠ '\n' := fun he => absurd (he ▸ h) (by decide)
  simp [Char.isWhitespace, h1, h2, h3, h4]

theorem toLower_isWhitespace (c : Char) :
    (Char.toLower c).isWhitespace = c.isWhitespace := by
  simp only [Char.toLower]
  by_cases h : c.toNat ≥ 65 ∧ c.toNat ≤ 90
  · rw [if_pos h]
    have hv : (c.toNat + 32).isValidChar := Or.inl (by omega)
    have ht : (Char.ofNat (c.toNat + 32)).toNat = c.toNat + 32 :=
      toNat_ofNat_valid _ hv
    rw [isWhitespace_false_of_gt _ (by rw [ht]; omega),
      isWhitespace_false_of_gt _ (by omega)]
  · rw [if_neg h]

theorem dropWhile_map_toLower (l : List Char) :
    (l.map Char.toLower).dropWhile Char.isWhitespace
      = (l.dropWhile Char.isWhitespace).map Char.toLower := by
  induction l with
  | nil => rfl
  | cons c rest ih =>
    by_cases h : c.isWhitespace
    · have h2 : (Char.toLower c).isWhitespace = true := by
        rw [toLower_isWhitespace]; exact h
      simp [List.dropWhile_cons, h, h2, ih]
    · have h2 : (Char.toLower c).isWhitespace = false := by
        rw [toLower_isWhitespace]; simpa using h
      simp [List.dropWhile_cons, h, h2]

theorem jsTrimL_map_toLower (l : List Char) :
    jsTrimL (l.map Char.toLower) = (jsTrimL l).map Char.toLower := by
  unfold jsTrimL
  rw [dropWhile_map_toLower, ← List.map_reverse, dropWhile_map_toLower,
    ← List.map_reverse]

/-- C9: emails that differ only in case and/or edge whitespace sanitize to
the same storage key and the same profile directory. -/
theorem sanitize_case_ws_insensitive (e1 e2 : String) (h : caseWsEquiv e1 e2) :
    sanitizeEmail e1 = sanitizeEmail e2 ∧ getProfileDir e1 = getProfileDir e2 := by
  have hs : sanitizeEmail e1 = sanitizeEmail e2 := by
    unfold sanitizeEmail
    rw [jsTrimL_map_toLower, jsTrimL_map_toLower]
    exact congrArg String.mk h
  exact ⟨hs, by unfold getProfileDir; rw [hs]⟩

/-- C9 witness: the concrete pair given in the specification. -/
theorem sanitize_case_ws_insensitive_witness :
    caseWsEquiv "User@Example.com" "user@example.com " ∧
    sanitizeEmail "User@Example.com" = sanitizeEmail "user@example.com " ∧
    getProfileDir "User@Example.com" = getProfileDir "user@example.com " := by
  have h : caseWsEquiv "User@Example.com" "user@example.com " := by decide
  exact ⟨h, (sanitize_case_ws_insensitive _ _ h).1,
    (sanitize_case_ws_insensitive _ _ h).2⟩

end FlowKey
